import Mathlib

/-!
Verification of the Docnine dashboard UI core.

Shallow embedding of the two "core" modules of the `Docsnine/docnineai-ui`
repository and proofs about them:

* the authenticated request client `src/lib/api.ts`
  (`refreshToken`, `apiFetch`, response parsing), and
* the server-sent-event consumer of
  `src/pages/projects/live-analysis.tsx`
  (`eventToSeverity`, `eventToMessage`, the `onmessage` / `onerror` /
  `onclose` callbacks, plus the mock variant of `LiveAnalysisPage`).

JavaScript runs single-threaded; asynchronous interleavings are modelled
as explicit event sequences acting on explicit state records.  `undefined`
/ `null` string values are modelled as `Option String`, and JavaScript
truthiness of such a value (`if (token)`, `if (event.msg)`) as `jsTruthy`.
-/

namespace DocnineUI

/-- JavaScript truthiness of a `string | null | undefined` value:
`undefined`/`null` and the empty string are falsy. -/
def jsTruthy : Option String → Bool
  | none => false
  | some s => s != ""

/-! ## `refreshToken` (src/lib/api.ts, lines 59–86)

One execution of the body of the async IIFE inside `refreshToken`.
The network behaviour of `fetch` + `res.json()` on the `/auth/refresh`
endpoint is an oracle `RefreshNet`:

* `netError` — `fetch` itself rejects (the `catch` branch);
* `response ok body` — a response whose `res.ok` is `ok`; `body = none`
  means `res.json()` would throw (unparsable body), `body = some b`
  gives the two token fields read by the code
  (`json.data?.accessToken` and `json.accessToken`).
-/

/-- The two fields of the refresh response body that
`json.data?.accessToken ?? json.accessToken ?? null` reads. -/
structure RefreshBody where
  dataAccessToken : Option String
  accessToken : Option String
  deriving Repr, DecidableEq

/-- Network oracle for one refresh call. -/
inductive RefreshNet where
  | netError : RefreshNet
  | response (ok : Bool) (body : Option RefreshBody) : RefreshNet
  deriving Repr, DecidableEq

/-- The token extraction `json.data?.accessToken ?? json.accessToken ?? null`
(`??` is null-coalescing, not truthiness). -/
def extractToken (b : RefreshBody) : Option String :=
  match b.dataAccessToken with
  | some t => some t
  | none => b.accessToken

/-- One (non-coalesced) execution of the `refreshToken` body, threading the
module-level `_accessToken` store.  Mirrors src/lib/api.ts lines 67–84:
the result is `(new stored token, returned value)`; every failure path is
caught and returns `null`, and `setAccessToken(token)` runs only under the
truthiness guard `if (token)`. -/
def runRefresh (stored : Option String) (net : RefreshNet) :
    Option String × Option String :=
  match net with
  | .netError => (stored, none)
  | .response ok body =>
    if !ok then (stored, none)
    else
      match body with
      | none => (stored, none)
      | some b =>
        let token := extractToken b
        if jsTruthy token then (token, token) else (stored, token)

/-- A refresh attempt that the code treats as a failure: the fetch rejected,
the response was non-2xx, or a 2xx body failed to parse as JSON. -/
def refreshFailure : RefreshNet → Bool
  | .netError => true
  | .response ok body => !ok || body.isNone

/-! ## Refresh coalescing (src/lib/api.ts, lines 59–66, 80–86)

`refreshToken` begins with
`if (_isRefreshing && _refreshPromise) return _refreshPromise`
and otherwise atomically (no `await` in between; JavaScript is
single-threaded) sets `_isRefreshing = true`, issues the network request
and stores the pending promise in `_refreshPromise`.  The `finally` block
clears both once the request settles.

The machine below models a sequence of `refreshToken` invocations arriving
between event-loop turns.  Promises are numbered; `fetches` counts refresh
network requests actually issued; `callers` records, per invocation, which
promise that caller ended up awaiting. -/

structure CoalesceState where
  isRefreshing : Bool
  refreshPromise : Option Nat
  nextId : Nat
  fetches : Nat
  callers : List Nat
  deriving Repr, DecidableEq

/-- Module state before any refresh: `_isRefreshing = false`,
`_refreshPromise = null`. -/
def idleCoalesce : CoalesceState :=
  { isRefreshing := false, refreshPromise := none, nextId := 0,
    fetches := 0, callers := [] }

/-- One invocation of `refreshToken`: either join the in-flight promise, or
start a new refresh (issuing one network request). -/
def callRefresh (st : CoalesceState) : CoalesceState :=
  match st.isRefreshing, st.refreshPromise with
  | true, some p => { st with callers := st.callers ++ [p] }
  | _, _ =>
    { st with isRefreshing := true, refreshPromise := some st.nextId,
              nextId := st.nextId + 1, fetches := st.fetches + 1,
              callers := st.callers ++ [st.nextId] }

/-- The `finally` block of the in-flight refresh settling:
`_isRefreshing = false; _refreshPromise = null`. -/
def settleRefresh (st : CoalesceState) : CoalesceState :=
  { st with isRefreshing := false, refreshPromise := none }

/-- A run of `n` concurrent `refreshToken` invocations from the idle state
(no settle in between — all `n` arrive while the first is in flight). -/
def coalesceCalls : Nat → CoalesceState
  | 0 => idleCoalesce
  | n + 1 => callRefresh (coalesceCalls n)

/-! ## `apiFetch` (src/lib/api.ts, lines 93–155) -/

/-- The error envelope `{ code, message, fields? }` of the backend
(`ApiError` in api.ts); `fields` entries are `{ field, message }` pairs. -/
structure ApiErr where
  code : String
  message : String
  fields : Option (List (String × String))
  deriving Repr, DecidableEq

/-- A parsed JSON response body, restricted to the fields `apiFetch`
reads: the `error` envelope and the `data` payload (abstracted to an
opaque string when present). -/
structure JsonBody where
  error : Option ApiErr
  data : Option String
  deriving Repr, DecidableEq

/-- An HTTP response as `apiFetch` observes it.  `contentTypeJson` is
`res.headers.get("content-type").includes("application/json")`;
`jsonBody = none` means `await res.json()` would throw. -/
structure HttpResponse where
  status : Nat
  statusText : String
  contentTypeJson : Bool
  jsonBody : Option JsonBody
  deriving Repr, DecidableEq

/-- The predicate `Response.ok` of the Fetch API: status in `[200, 300)`. -/
def respOk (r : HttpResponse) : Bool :=
  decide (200 ≤ r.status) && decide (r.status < 300)

/-- What a completed `apiFetch` call produces. -/
inductive ApiResult where
  /-- Normal return of `body.data` (the `{ success, data }` envelope). -/
  | dataVal (d : String) : ApiResult
  /-- Normal return of the whole body (`body?.data ?? body` with no `data`). -/
  | wholeBody (b : JsonBody) : ApiResult
  /-- Normal return of the raw `Response` (successful non-JSON body). -/
  | rawResponse (r : HttpResponse) : ApiResult
  /-- A thrown structured error: `throw new ApiException(status, err)`. -/
  | apiException (status : Nat) (e : ApiErr) : ApiResult
  /-- The case where `await res.json()` threw (JSON content-type, unparsable body);
  the exception propagates out of `apiFetch` uncaught. -/
  | jsonThrow : ApiResult
  deriving Repr, DecidableEq

/-- The fallback envelope `{ code: "UNKNOWN_ERROR", ... }` of api.ts
line 149. -/
def unknownError : ApiErr :=
  { code := "UNKNOWN_ERROR", message := "An unexpected error occurred.",
    fields := none }

/-- The synthetic envelope thrown for a non-JSON error response
(api.ts lines 139–142). -/
def networkError (status : Nat) (statusText : String) : ApiErr :=
  { code := "NETWORK_ERROR",
    message := "Server returned " ++ toString status ++ " " ++ statusText,
    fields := none }

/-- Response-parsing tail of `apiFetch` (api.ts lines 132–155), applied to
whichever response `res` holds after the optional retry. -/
def parseResponse (r : HttpResponse) : ApiResult :=
  if r.contentTypeJson then
    match r.jsonBody with
    | none => .jsonThrow
    | some b =>
      if !(respOk r) then
        .apiException r.status (b.error.getD unknownError)
      else
        match b.data with
        | some d => .dataVal d
        | none => .wholeBody b
  else if !(respOk r) then
    .apiException r.status (networkError r.status r.statusText)
  else
    .rawResponse r

/-- Network oracle for one `apiFetch` call: the response to the first
`doFetch`, the behaviour of the refresh endpoint should it be called, and
the response to the retried `doFetch` should a retry happen. -/
structure FetchEnv where
  first : HttpResponse
  refreshNet : RefreshNet
  retry : HttpResponse
  deriving Repr, DecidableEq

/-- Observable trace of one `apiFetch` call: how many refresh-endpoint
requests were issued and the bearer token attached to each `doFetch`
request, in order. -/
structure FetchTrace where
  refreshCalls : Nat
  requests : List (Option String)
  deriving Repr, DecidableEq

/-- The bearer attached to the initial `doFetch(token)`: the header is set
only when a token is stored and `skipAuth` is not set (api.ts
lines 105–108). -/
def firstBearer (stored : Option String) (skipAuth : Bool) : Option String :=
  if jsTruthy stored && !skipAuth then stored else none

/-- One `apiFetch` call (api.ts lines 93–155), for a request issued while
no refresh is in flight (the coalesced multi-caller case is the
`CoalesceState` machine above).  Returns the new stored access token, the
call's result, and the observable trace. -/
def apiFetchRun (stored : Option String) (skipAuth : Bool) (env : FetchEnv) :
    Option String × ApiResult × FetchTrace :=
  let res0 := env.first
  if res0.status = 401 ∧ skipAuth = false then
    let refreshed := runRefresh stored env.refreshNet
    if jsTruthy refreshed.2 then
      (refreshed.1, parseResponse env.retry,
        { refreshCalls := 1,
          requests := [firstBearer stored skipAuth, refreshed.2] })
    else
      (refreshed.1, parseResponse res0,
        { refreshCalls := 1, requests := [firstBearer stored skipAuth] })
  else
    (stored, parseResponse res0,
      { refreshCalls := 0, requests := [firstBearer stored skipAuth] })

/-! ## Event-stream consumer (src/pages/projects/live-analysis.tsx) -/

/-- The union `type LogSeverity = "info" | "warning" | "error" | "success"`. -/
inductive LogSeverity where
  | info | warning | error | success
  deriving Repr, DecidableEq

/-- The function `eventToSeverity` (live-analysis.tsx lines 32–39).  The TypeScript
call sites pass `data.step` / `data.status` of a parsed JSON value, which
may be `undefined`; `undefined` is `none` and `===` against a string
literal is equality with `some`. -/
def eventToSeverity (step status : Option String) : LogSeverity :=
  if step = some "done" then .success
  else if step = some "error" then .error
  else if status = some "error" then .error
  else if status = some "warning" then .warning
  else if step = some "security" then .warning
  else .info

/-- The fields of a parsed stream event that the `onmessage` handler
reads; a field absent from the JSON object is `none`. -/
structure EventData where
  type : Option String := none
  step : Option String := none
  status : Option String := none
  msg : Option String := none
  detail : Option String := none
  ts : Option String := none
  deriving Repr, DecidableEq

/-- The fixed success message of `eventToMessage` for a `done` event. -/
def doneMessage : String := "✅ Documentation pipeline completed successfully."

/-- The function `eventToMessage` (live-analysis.tsx lines 42–50).  `if (event.step)` /
`if (event.msg)` / `if (event.detail)` are truthiness tests (an empty
string is not pushed onto `parts`), `event.msg ?? event.detail ?? "..."`
is null-coalescing, and `parts.join(" — ") || "Processing…"` falls back
exactly when the join is empty. -/
def eventToMessage (e : EventData) : String :=
  if e.step = some "done" then doneMessage
  else if e.step = some "error" then
    "❌ Pipeline error: " ++ (e.msg.getD (e.detail.getD "Unknown error"))
  else
    let parts : List String :=
      (if jsTruthy e.step then ["[" ++ e.step.getD "" ++ "]"] else []) ++
      (if jsTruthy e.msg then [e.msg.getD ""] else []) ++
      (if jsTruthy e.detail then [e.detail.getD ""] else [])
    let joined := String.intercalate " — " parts
    if joined = "" then "Processing…" else joined

/-- A rendered log entry (live-analysis.tsx lines 24–29).  `id` is the
uniqueness key `Date.now()-Math.random()`; the embedding fills it from the
handler's clock parameter, as no behaviour reads it back. -/
structure LogEntry where
  id : String
  timestamp : String
  message : String
  severity : LogSeverity
  deriving Repr, DecidableEq

/-- The `connectionState` field of `LiveAnalysisPage`. -/
inductive ConnState where
  | connecting | connected | reconnecting | disconnected
  deriving Repr, DecidableEq

/-- The `pipelineStatus` field of `LiveAnalysisPage`. -/
inductive PipeStatus where
  | running | done | error
  deriving Repr, DecidableEq

/-- The React state of `LiveAnalysisPage` that the stream callbacks touch,
plus the `updateLocalProject` calls issued to the project store, recorded
in order as `(status, apiStatus)` pairs. -/
structure StreamState where
  logs : List LogEntry
  connectionState : ConnState
  pipelineStatus : PipeStatus
  storeUpdates : List (String × String)
  loadError : Option String
  isPaused : Bool
  deriving Repr, DecidableEq

/-- The `useState` initial values of `LiveAnalysisPage`
(live-analysis.tsx lines 58–62). -/
def initStream : StreamState :=
  { logs := [], connectionState := .connecting, pipelineStatus := .running,
    storeUpdates := [], loadError := none, isPaused := false }

/-- The raw `ev.data` of one stream message, as the handler's
`JSON.parse(ev.data ?? "{}")` sees it: absent (`undefined`, parsed as the
empty object), unparsable (the parse throws), or a parsed object whose
relevant fields are `d`. -/
inductive MsgData where
  | absent : MsgData
  | invalid : MsgData
  | valid (d : EventData) : MsgData
  deriving Repr, DecidableEq

/-- JavaScript `message.startsWith("✅")` of the dedup guard, rendered on
the character sequence so that it evaluates inside the kernel. -/
def startsWithCheck (s : String) : Bool :=
  "✅".data.isPrefixOf s.data

/-- The body of the `try` block of `onmessage` after a successful parse
(live-analysis.tsx lines 114–144), for parsed event `d`; `now` is the
clock value used for the entry id and the `data.ts ?? new Date()`
timestamp fallback. -/
def handleEventData (now : String) (st : StreamState) (d : EventData) :
    StreamState :=
  if d.type = some "ping" then st
  else
    let severity := eventToSeverity d.step d.status
    let message := eventToMessage d
    let logs' :=
      if d.step = some "done" ∧ st.logs.any (fun l => startsWithCheck l.message) = true
      then st.logs
      else st.logs ++ [{ id := now, timestamp := d.ts.getD now,
                         message := message, severity := severity }]
    if d.step = some "done" then
      { st with logs := logs', pipelineStatus := .done,
                connectionState := .disconnected,
                storeUpdates := st.storeUpdates ++ [("completed", "done")] }
    else if d.step = some "error" then
      { st with logs := logs', pipelineStatus := .error,
                connectionState := .disconnected,
                storeUpdates := st.storeUpdates ++ [("failed", "error")] }
    else
      { st with logs := logs' }

/-- The `onmessage` callback (live-analysis.tsx lines 112–148): a JSON
parse failure is swallowed by the surrounding `catch`, an absent `ev.data`
parses as the empty object.  The closure never reads `ctrl.signal`, so its
behaviour does not depend on whether the connection was aborted. -/
def handleMessage (now : String) (st : StreamState) (m : MsgData) :
    StreamState :=
  match m with
  | .invalid => st
  | .absent => handleEventData now st {}
  | .valid d => handleEventData now st d

/-- The `onmessage` closure as fired after `ctrl.abort()`: the source
contains no abort guard in `onmessage`, so this is `handleMessage`
unchanged. -/
def handleMessageAfterAbort (now : String) (st : StreamState) (m : MsgData) :
    StreamState :=
  handleMessage now st m

/-- The `onerror` callback (lines 150–154); `aborted` is
`ctrl.signal.aborted` at firing time. -/
def handleError (aborted : Bool) (st : StreamState) : StreamState :=
  if aborted then st
  else { st with connectionState := .reconnecting }

/-- The `onclose` callback (lines 156–160). -/
def handleClose (aborted : Bool) (st : StreamState) : StreamState :=
  if aborted then st else { st with connectionState := .disconnected }

/-- The `onopen` callback (lines 102–110) on a 2xx response; on a non-2xx
response `onopen` throws, landing in `handleConnectFailure`. -/
def handleOpen (st : StreamState) : StreamState :=
  { st with connectionState := .connected, loadError := none }

/-- The `catch` around `fetchEventSource` (lines 162–167). -/
def handleConnectFailure (aborted : Bool) (errMsg : String)
    (st : StreamState) : StreamState :=
  if aborted then st
  else { st with connectionState := .disconnected, loadError := some errMsg }

/-- An interaction with the live page: a stream message arriving, or the
user toggling the pause button (`setIsPaused`). -/
inductive StreamAction where
  | message (now : String) (m : MsgData) : StreamAction
  | setPaused (b : Bool) : StreamAction
  deriving Repr, DecidableEq

/-- One interaction step. -/
def streamStep (st : StreamState) (a : StreamAction) : StreamState :=
  match a with
  | .message now m => handleMessage now st m
  | .setPaused b => { st with isPaused := b }

/-- A sequence of interactions. -/
def runStream (st : StreamState) (as : List StreamAction) : StreamState :=
  as.foldl streamStep st

/-- Is this action a heartbeat message `{ type: "ping" }`? -/
def isPingAction : StreamAction → Bool
  | .message _ (.valid d) => d.type = some "ping"
  | _ => false

/-- Is this action a stream message (as opposed to a pause toggle)? -/
def isMessageAction : StreamAction → Bool
  | .message _ _ => true
  | .setPaused _ => false

/-! ## Mock variant of `LiveAnalysisPage`
(second document of live-analysis.tsx, lines 319–489)

The mock page emits a fixed list of sixteen log entries from a 1.5 s
interval.  Its effect has `isPaused` in the dependency array, so toggling
pause clears the interval and re-runs the effect, resetting the local
`eventIndex` to `0` (the log state itself survives).  `tick` is one
interval firing; `togglePause` is one click of the pause button. -/

/-- The `mockEvents` table (lines 344–361), as `(message, severity)`. -/
def mockEvents : List (String × LogSeverity) :=
  [("Initializing analysis engine...", .info),
   ("Cloning repository...", .info),
   ("Repository cloned successfully.", .success),
   ("Scanning for dependencies...", .info),
   ("Found package.json. Analyzing Node.js project.", .info),
   ("Warning: Outdated dependency \x27lodash\x27 found.", .warning),
   ("Parsing source files...", .info),
   ("Analyzing authentication flow...", .info),
   ("Error parsing file src/legacy/auth.js: Unexpected token", .error),
   ("Generating API documentation...", .info),
   ("Extracting React components...", .info),
   ("Building dependency graph...", .info),
   ("Running security scan...", .info),
   ("Critical: Hardcoded secret found in config.ts", .error),
   ("Finalizing documentation...", .info),
   ("Analysis complete.", .success)]

/-- State of the mock page: its log (id/timestamp elided — they are
`Math.random()` / wall-clock values nothing reads back), the effect-local
`eventIndex`, the pause flag, whether the current interval has been
cleared, the connection state, and the `updateProjectStatus` calls issued
to the store, in order. -/
structure MockState where
  logs : List (String × LogSeverity)
  eventIndex : Nat
  isPaused : Bool
  cleared : Bool
  connectionState : ConnState
  storeUpdates : List String
  deriving Repr, DecidableEq

/-- One run of the mock effect body (lines 336–365): reset `eventIndex`,
start a fresh interval, `setConnectionState("connected")`,
`updateProjectStatus(id, "analyzing")`. -/
def mockEffectStart (st : MockState) : MockState :=
  { st with eventIndex := 0, cleared := false,
            connectionState := .connected,
            storeUpdates := st.storeUpdates ++ ["analyzing"] }

/-- The mock page as mounted: `useState` initial values, then the first
effect run. -/
def initMock : MockState :=
  mockEffectStart
    { logs := [], eventIndex := 0, isPaused := false, cleared := true,
      connectionState := .connecting, storeUpdates := [] }

/-- An interaction with the mock page. -/
inductive MockAction where
  | tick : MockAction
  | togglePause : MockAction
  deriving Repr, DecidableEq

/-- One interaction step.  A click of the pause button flips `isPaused`,
which (being in the effect's dependency array) runs the cleanup
(`clearInterval`) and re-runs the effect.  A `tick` of a live interval
skips while paused (lines 366–382), else emits `mockEvents[eventIndex]`
or — past the end — clears the interval, disconnects, and marks the
project completed. -/
def mockStep (st : MockState) (a : MockAction) : MockState :=
  match a with
  | .togglePause => mockEffectStart { st with isPaused := !st.isPaused }
  | .tick =>
    if st.cleared then st
    else if st.isPaused then st
    else
      match mockEvents.get? st.eventIndex with
      | some e =>
        { st with logs := st.logs ++ [e], eventIndex := st.eventIndex + 1 }
      | none =>
        { st with cleared := true, connectionState := .disconnected,
                  storeUpdates := st.storeUpdates ++ ["completed"] }

/-- A sequence of interactions with the mock page. -/
def runMock (st : MockState) (as : List MockAction) : MockState :=
  as.foldl mockStep st

/-! ## Theorems -/

/-- Modelled from the spec's words (§4.2, claim C3), for comparison with
the source's `eventToSeverity`: `step == "done"` → success; otherwise
`step == "error"` or `status == "error"` → error; otherwise
`status == "warning"` or `step == "security"` → warning; otherwise
info. -/
def severitySpecRule (step status : Option String) : LogSeverity :=
  if step = some "done" then .success
  else if step = some "error" ∨ status = some "error" then .error
  else if status = some "warning" ∨ step = some "security" then .warning
  else .info

/-- Claim C3: severity classification is a pure function of `(step, status)`
and agrees with the spec's cascade on every pair, including combined cases
such as `step = "security"` with `status = "error"`. -/
theorem eventToSeverity_matches_spec (step status : Option String) :
    eventToSeverity step status = severitySpecRule step status := by
  unfold eventToSeverity severitySpecRule
  split_ifs <;> simp_all

/-- Claim C4: `refreshToken` never throws (every path of the embedding
returns a value — the `try`/`catch` swallows the network and parse
failures): on any failure it returns `null` with the stored token
unchanged; and only a successful response carrying a (truthy) token
updates the store, in which case that same token is returned. -/
theorem refreshToken_failure_semantics (stored : Option String)
    (net : RefreshNet) :
    (refreshFailure net = true → runRefresh stored net = (stored, none)) ∧
    (∀ b, net = .response true (some b) → jsTruthy (extractToken b) = true →
      runRefresh stored net = (extractToken b, extractToken b)) ∧
    ((runRefresh stored net).1 ≠ stored →
      ∃ t, (runRefresh stored net).1 = some t ∧
        (runRefresh stored net).2 = some t) := by
  refine ⟨?_, ?_, ?_⟩
  · intro hf
    cases net with
    | netError => rfl
    | response ok body =>
      cases ok with
      | false => rfl
      | true =>
        cases body with
        | none => rfl
        | some b => simp [refreshFailure] at hf
  · intro b hnet ht
    subst hnet
    simp [runRefresh, ht]
  · intro hch
    cases net with
    | netError => simp [runRefresh] at hch
    | response ok body =>
      cases ok with
      | false => simp [runRefresh] at hch
      | true =>
        cases body with
        | none => simp [runRefresh] at hch
        | some b =>
          simp only [runRefresh] at hch ⊢
          by_cases ht : jsTruthy (extractToken b) = true
          · simp only [ht, if_true] at hch ⊢
            cases hx : extractToken b with
            | none => rw [hx] at ht; simp [jsTruthy] at ht
            | some t => exact ⟨t, by simp [hx], by simp [hx]⟩
          · simp only [Bool.not_eq_true] at ht
            simp [ht] at hch

/-- Witness for C4 at concrete inputs: a rejected fetch leaves the stored
token alone and returns `null`; a 2xx body with
`data.accessToken = "tok"` stores and returns `"tok"`. -/
theorem refreshToken_failure_semantics_witness :
    runRefresh (some "old") RefreshNet.netError = (some "old", none) ∧
    runRefresh none (.response true (some ⟨some "tok", none⟩)) =
      (some "tok", some "tok") :=
  ⟨(refreshToken_failure_semantics (some "old") .netError).1 rfl,
   (refreshToken_failure_semantics none
      (.response true (some ⟨some "tok", none⟩))).2.1
     ⟨some "tok", none⟩ rfl rfl⟩

/-- Closed form of the coalescing machine after `n ≥ 1` concurrent calls:
the first call issued the single network request and created promise `0`;
every later call joined it. -/
theorem coalesceCalls_closed (n : Nat) (h : 1 ≤ n) :
    coalesceCalls n =
      { isRefreshing := true, refreshPromise := some 0, nextId := 1,
        fetches := 1, callers := List.replicate n 0 } := by
  induction n with
  | zero => cases h
  | succ k ih =>
    cases Nat.eq_zero_or_pos k with
    | inl hk => subst hk; rfl
    | inr hk =>
      show callRefresh (coalesceCalls k) = _
      rw [ih hk]
      simp [callRefresh, List.replicate_succ']

/-- Claim C2: `n` concurrent `refreshToken` callers arriving while the first
refresh is still in flight issue exactly one network request, and every
caller ends up awaiting the same promise (number `0`) — hence, when that
promise settles, every caller receives the same resulting token (or
`null`). -/
theorem refreshToken_coalesces (n : Nat) (h : 1 ≤ n) :
    (coalesceCalls n).fetches = 1 ∧
    (coalesceCalls n).callers = List.replicate n 0 := by
  rw [coalesceCalls_closed n h]
  exact ⟨rfl, rfl⟩

/-- Witness for C2: three simultaneous 401-driven callers — one fetch,
all three awaiting promise `0`. -/
theorem refreshToken_coalesces_witness :
    (coalesceCalls 3).fetches = 1 ∧
    (coalesceCalls 3).callers = List.replicate 3 0 :=
  refreshToken_coalesces 3 (by decide)

/-- Claim C1: one `apiFetch` call (no refresh already in flight) hits the
refresh endpoint exactly when the first response is 401 and `skipAuth` is
unset; it re-issues the request exactly once with the new token when the
refresh yields a (truthy) token; when it does not, the original 401
response is the one parsed and surfaced; and in no case does more than
one retry (more than two requests, or more than one refresh) happen. -/
theorem apiFetch_refresh_and_retry (stored : Option String)
    (skipAuth : Bool) (env : FetchEnv) :
    ((apiFetchRun stored skipAuth env).2.2.refreshCalls =
      if env.first.status = 401 ∧ skipAuth = false then 1 else 0) ∧
    (apiFetchRun stored skipAuth env).2.2.requests.length ≤ 2 ∧
    (¬(env.first.status = 401 ∧ skipAuth = false) →
      (apiFetchRun stored skipAuth env).2.1 = parseResponse env.first ∧
      (apiFetchRun stored skipAuth env).2.2.requests =
        [firstBearer stored skipAuth]) ∧
    (env.first.status = 401 → skipAuth = false →
      jsTruthy (runRefresh stored env.refreshNet).2 = true →
      (apiFetchRun stored skipAuth env).2.1 = parseResponse env.retry ∧
      (apiFetchRun stored skipAuth env).2.2.requests =
        [firstBearer stored skipAuth, (runRefresh stored env.refreshNet).2]) ∧
    (env.first.status = 401 → skipAuth = false →
      jsTruthy (runRefresh stored env.refreshNet).2 = false →
      (apiFetchRun stored skipAuth env).2.1 = parseResponse env.first ∧
      (apiFetchRun stored skipAuth env).2.2.requests =
        [firstBearer stored skipAuth]) := by
  by_cases h : env.first.status = 401 ∧ skipAuth = false
  · by_cases ht : jsTruthy (runRefresh stored env.refreshNet).2 = true
    · refine ⟨?_, ?_, ?_, ?_, ?_⟩ <;>
        simp [apiFetchRun, h, ht]
    · simp only [Bool.not_eq_true] at ht
      refine ⟨?_, ?_, ?_, ?_, ?_⟩ <;>
        simp [apiFetchRun, h, ht]
  · exact ⟨by simp [apiFetchRun, h], by simp [apiFetchRun, h],
      fun _ => by simp [apiFetchRun, h],
      fun h1 h2 => absurd ⟨h1, h2⟩ h,
      fun h1 h2 => absurd ⟨h1, h2⟩ h⟩

/-- A 401 response with a `TOKEN_EXPIRED` error envelope. -/
def resp401 : HttpResponse :=
  { status := 401, statusText := "Unauthorized", contentTypeJson := true,
    jsonBody := some ⟨some ⟨"TOKEN_EXPIRED", "expired", none⟩, none⟩ }

/-- A 200 response delivering a `data` payload. -/
def resp200 : HttpResponse :=
  { status := 200, statusText := "OK", contentTypeJson := true,
    jsonBody := some ⟨none, some "payload"⟩ }

/-- An `apiFetch` environment where the first request 401s and the
refresh attempt fails on the network. -/
def envRefreshFails : FetchEnv :=
  { first := resp401, refreshNet := .netError, retry := resp200 }

/-- Witness for C1: a 401 whose refresh attempt fails on the network —
no retry happened (a single request went out), and the original 401's
parsed error is the surfaced result. -/
theorem apiFetch_refresh_and_retry_witness :
    (apiFetchRun none false envRefreshFails).2.1 = parseResponse resp401 ∧
    (apiFetchRun none false envRefreshFails).2.2.requests =
      [firstBearer none false] :=
  (apiFetch_refresh_and_retry none false envRefreshFails).2.2.2.2 rfl rfl rfl

/-- Does this `apiFetch` outcome leave the function by a `throw`? -/
def isThrow : ApiResult → Bool
  | .apiException _ _ => true
  | .jsonThrow => true
  | _ => false

/-- Claim C5, amended: for every non-ok response, `apiFetch` never returns
normally; when the content-type header does not declare JSON the thrown
error is `NETWORK_ERROR` carrying the HTTP status; when it declares JSON
and the body parses, the thrown error carries the envelope's code,
message and field errors, with the `UNKNOWN_ERROR` fallback when the
envelope is absent; when it declares JSON but the body does not parse,
the bare `res.json()` failure propagates instead of a coded error. -/
theorem apiFetch_nonok_throws (r : HttpResponse) (h : respOk r = false) :
    (r.contentTypeJson = false →
      parseResponse r =
        .apiException r.status (networkError r.status r.statusText)) ∧
    (∀ b, r.contentTypeJson = true → r.jsonBody = some b →
      parseResponse r = .apiException r.status (b.error.getD unknownError)) ∧
    (r.contentTypeJson = true → r.jsonBody = none →
      parseResponse r = .jsonThrow) ∧
    isThrow (parseResponse r) = true := by
  refine ⟨?_, ?_, ?_, ?_⟩
  · intro hct; simp [parseResponse, hct, h]
  · intro b hct hb; simp [parseResponse, hct, hb, h]
  · intro hct hb; simp [parseResponse, hct, hb]
  · cases hct : r.contentTypeJson with
    | false => simp [parseResponse, hct, h, isThrow]
    | true =>
      cases hb : r.jsonBody with
      | none => simp [parseResponse, hct, hb, isThrow]
      | some b => simp [parseResponse, hct, hb, h, isThrow]

/-- Witness for C5 (amended): a non-JSON 503 throws
`NETWORK_ERROR` with the status. -/
theorem apiFetch_nonok_throws_witness :
    parseResponse { status := 503, statusText := "Service Unavailable",
                    contentTypeJson := false, jsonBody := none } =
      .apiException 503 (networkError 503 "Service Unavailable") :=
  (apiFetch_nonok_throws
      { status := 503, statusText := "Service Unavailable",
        contentTypeJson := false, jsonBody := none } (by decide)).1 rfl

/-- Claim C5, counterexample: a 502 response whose content-type header
declares JSON but whose body does not parse.  The claim requires a thrown
error carrying the code `NETWORK_ERROR` and the HTTP status for a
non-JSON body; the code instead lets the bare `res.json()` failure
propagate, which is not an `ApiException` and carries no code. -/
theorem apiFetch_unparsable_json_counterexample :
    parseResponse { status := 502, statusText := "Bad Gateway",
                    contentTypeJson := true, jsonBody := none } =
      ApiResult.jsonThrow ∧
    ApiResult.jsonThrow ≠
      ApiResult.apiException 502 (networkError 502 "Bad Gateway") :=
  ⟨rfl, by simp⟩

/-- A heartbeat message is absorbed before any state is touched. -/
theorem handleMessage_ping (now : String) (st : StreamState)
    (d : EventData) (h : d.type = some "ping") :
    handleMessage now st (.valid d) = st := by
  simp [handleMessage, handleEventData, h]

/-- Claim C7: heartbeat events `{ type: "ping" }` are no-ops — any
interaction sequence produces exactly the state (log list, connection
state, pipeline status, store updates, everything) produced by the same
sequence with all pings removed, wherever and however often they occur. -/
theorem ping_events_are_noops (st : StreamState) (as : List StreamAction) :
    runStream st as =
      runStream st (as.filter (fun a => !isPingAction a)) := by
  induction as generalizing st with
  | nil => rfl
  | cons a rest ih =>
    by_cases hp : isPingAction a = true
    · have hstep : streamStep st a = st := by
        cases a with
        | message now m =>
          cases m with
          | absent => simp [isPingAction] at hp
          | invalid => simp [isPingAction] at hp
          | valid d =>
            simp only [isPingAction, decide_eq_true_eq] at hp
            exact handleMessage_ping now st d hp
        | setPaused b => simp [isPingAction] at hp
      have h1 : runStream st (a :: rest) = runStream st rest := by
        show runStream (streamStep st a) rest = runStream st rest
        rw [hstep]
      rw [h1, List.filter_cons, if_neg (by simp [hp])]
      exact ih st
    · rw [List.filter_cons, if_pos (by simp [hp])]
      show runStream (streamStep st a) rest = _
      exact ih (streamStep st a)

/-- Claim C10: a stream message whose data is not valid JSON is silently
dropped — the `catch` leaves the log, connection state, pipeline status
and store untouched — while a message with absent data parses as the
empty object and appends one generic info `"Processing…"` entry, changing
nothing else. -/
theorem malformed_and_absent_messages (now : String) (st : StreamState) :
    handleMessage now st .invalid = st ∧
    handleMessage now st .absent =
      { st with logs := st.logs ++
          [{ id := now, timestamp := now, message := "Processing…",
             severity := .info }] } := by
  refine ⟨rfl, ?_⟩
  have hnil : String.intercalate " — " [] = "" := rfl
  simp [handleMessage, handleEventData, eventToSeverity, eventToMessage,
        jsTruthy, hnil]

/-- Claim C9, amended: the `onerror` and `onclose` callbacks and the
connect-failure path all test `ctrl.signal.aborted` and, fired after
abort, change nothing — connection state, log list and load error all
stay as they were. -/
theorem abort_guards_error_close_paths (st : StreamState) (e : String) :
    handleError true st = st ∧
    handleClose true st = st ∧
    handleConnectFailure true e st = st :=
  ⟨rfl, rfl, rfl⟩

/-- Claim C9, counterexample: the `onmessage` closure never reads
`ctrl.signal`, so a buffered message delivered after `ctrl.abort()`
behaves exactly as before the abort and appends a log entry — the claim
that every callback firing after abort leaves the state unchanged fails
on the message callback. -/
theorem onmessage_after_abort_counterexample :
    handleMessageAfterAbort "t0" initStream
        (.valid { step := some "clone", msg := some "Cloning repository" })
      ≠ initStream := by
  decide

/-- Only a `done` step classifies as success. -/
theorem eventToSeverity_success_iff (step status : Option String) :
    eventToSeverity step status = .success ↔ step = some "done" := by
  unfold eventToSeverity
  split_ifs <;> simp_all

/-- Only a `done` step produces the fixed success message. -/
theorem eventToMessage_done (d : EventData) (h : d.step = some "done") :
    eventToMessage d = doneMessage := by
  simp [eventToMessage, h]

/-- The log invariant behind the `done` dedup guard: every
success-severity entry carries the `"✅"`-prefixed done message, and there
is at most one success-severity entry. -/
def GoodLog (logs : List LogEntry) : Prop :=
  (∀ l ∈ logs, l.severity = .success → startsWithCheck l.message = true) ∧
  logs.countP (fun l => l.severity == LogSeverity.success) ≤ 1

/-- The log after one parsed stream event, in closed form. -/
theorem handleEventData_logs (now : String) (st : StreamState)
    (d : EventData) :
    (handleEventData now st d).logs =
      if d.type = some "ping" then st.logs
      else if d.step = some "done" ∧
          st.logs.any (fun l => startsWithCheck l.message) = true then
        st.logs
      else
        st.logs ++ [{ id := now, timestamp := d.ts.getD now,
                      message := eventToMessage d,
                      severity := eventToSeverity d.step d.status }] := by
  simp only [handleEventData]
  split_ifs <;> rfl

/-- The invariant `GoodLog` survives one parsed stream event. -/
theorem handleEventData_good (now : String) (st : StreamState)
    (d : EventData) (hg : GoodLog st.logs) :
    GoodLog (handleEventData now st d).logs := by
  rw [handleEventData_logs]
  by_cases hping : d.type = some "ping"
  · rwa [if_pos hping]
  rw [if_neg hping]
  by_cases hdup : d.step = some "done" ∧
      st.logs.any (fun l => startsWithCheck l.message) = true
  · rwa [if_pos hdup]
  rw [if_neg hdup]
  obtain ⟨hmsg, hcount⟩ := hg
  by_cases hdone : d.step = some "done"
  · have hnone : st.logs.any (fun l => startsWithCheck l.message) = false := by
      rcases Bool.eq_false_or_eq_true
        (st.logs.any fun l => startsWithCheck l.message) with h | h
      · exact absurd ⟨hdone, h⟩ hdup
      · exact h
    have hzero : st.logs.countP
        (fun l => l.severity == LogSeverity.success) = 0 := by
      rw [List.countP_eq_zero]
      intro l hl
      simp only [beq_iff_eq]
      intro hsev
      have hsw := hmsg l hl hsev
      have hany : st.logs.any (fun l => startsWithCheck l.message) = true :=
        List.any_eq_true.mpr ⟨l, hl, hsw⟩
      rw [hany] at hnone
      cases hnone
    constructor
    · intro l hl hsev
      rcases List.mem_append.mp hl with h | h
      · exact hmsg l h hsev
      · simp only [List.mem_singleton] at h
        subst h
        show startsWithCheck (eventToMessage d) = true
        rw [eventToMessage_done d hdone]
        decide
    · rw [List.countP_append, hzero, Nat.zero_add]
      exact (List.countP_le_length _).trans (by simp)
  · have hsev : eventToSeverity d.step d.status ≠ .success := by
      rw [Ne, eventToSeverity_success_iff]
      exact hdone
    constructor
    · intro l hl hs
      rcases List.mem_append.mp hl with h | h
      · exact hmsg l h hs
      · simp only [List.mem_singleton] at h
        subst h
        exact absurd hs hsev
    · rw [List.countP_append]
      have hbeq : (eventToSeverity d.step d.status ==
          LogSeverity.success) = false := by
        simpa using hsev
      have hone : List.countP
          (fun (l : LogEntry) => l.severity == LogSeverity.success)
          [{ id := now, timestamp := d.ts.getD now,
             message := eventToMessage d,
             severity := eventToSeverity d.step d.status }] = 0 := by
        simp [List.countP_cons, hbeq]
      omega

/-- The invariant `GoodLog` survives any raw message. -/
theorem handleMessage_good (now : String) (st : StreamState) (m : MsgData)
    (hg : GoodLog st.logs) : GoodLog (handleMessage now st m).logs := by
  cases m with
  | invalid => exact hg
  | absent => exact handleEventData_good now st {} hg
  | valid d => exact handleEventData_good now st d hg

/-- The invariant `GoodLog` survives any interaction sequence. -/
theorem runStream_good (st : StreamState) (as : List StreamAction)
    (hg : GoodLog st.logs) : GoodLog (runStream st as).logs := by
  induction as generalizing st with
  | nil => exact hg
  | cons a rest ih =>
    cases a with
    | message now m => exact ih _ (handleMessage_good now st m hg)
    | setPaused b => exact ih _ hg

/-- Claim C6, amended: the final log of any interaction sequence contains
at most one success-severity (`done`-derived) entry; a `done` event
arriving while some logged message already starts with `"✅"` — in
particular any done-derived entry — is discarded, leaving the log
unchanged; and a `done` event arriving while no logged message starts
with `"✅"` appends exactly one success entry.  (The guard keys on the
`"✅"` message prefix, not on done-derivedness, so an ordinary event whose
`msg` begins with `"✅"` also suppresses a later first `done` entry.) -/
theorem done_dedup_amended (as : List StreamAction) (now : String)
    (st : StreamState) (d : EventData) (hstep : d.step = some "done")
    (htype : d.type ≠ some "ping") :
    (runStream initStream as).logs.countP
        (fun l => l.severity == LogSeverity.success) ≤ 1 ∧
    (st.logs.any (fun l => startsWithCheck l.message) = true →
      (handleMessage now st (.valid d)).logs = st.logs) ∧
    (st.logs.any (fun l => startsWithCheck l.message) = false →
      (handleMessage now st (.valid d)).logs =
        st.logs ++ [{ id := now, timestamp := d.ts.getD now,
                      message := doneMessage, severity := .success }]) := by
  have hinit : GoodLog initStream.logs := by
    constructor
    · intro l hl
      simp [initStream] at hl
    · simp [initStream]
  refine ⟨(runStream_good initStream as hinit).2, ?_, ?_⟩
  · intro hany
    show (handleEventData now st d).logs = st.logs
    rw [handleEventData_logs, if_neg htype, if_pos ⟨hstep, hany⟩]
  · intro hnone
    show (handleEventData now st d).logs = _
    have hne : ¬(d.step = some "done" ∧
        st.logs.any (fun l => startsWithCheck l.message) = true) := by
      rintro ⟨-, h⟩
      rw [hnone] at h
      cases h
    rw [handleEventData_logs, if_neg htype, if_neg hne,
      eventToMessage_done d hstep,
      (eventToSeverity_success_iff d.step d.status).mpr hstep]

/-- The `done` stream event. -/
def doneEvent : EventData := { step := some "done" }

/-- The page state after one `done` event. -/
def stAfterDone : StreamState :=
  runStream initStream [.message "t1" (.valid doneEvent)]

/-- Witness for C6 (amended): a second `done` event on a connection that
already logged one is discarded. -/
theorem done_dedup_amended_witness :
    (handleMessage "t2" stAfterDone (.valid doneEvent)).logs =
      stAfterDone.logs :=
  (done_dedup_amended [] "t2" stAfterDone doneEvent rfl (by decide)).2.1
    (by decide)

/-- Claim C6, counterexample: the dedup guard keys on the `"✅"` message
prefix rather than on done-derived entries.  After an ordinary event whose
`msg` is `"✅ fake"` (an info entry), the first `done` event of the
connection is discarded: the final log is the single info entry, and no
success entry was ever appended — the claim that the first `done` event
appends exactly one success entry fails. -/
theorem done_dedup_counterexample :
    (runStream initStream
        [.message "t1" (.valid { msg := some "✅ fake" }),
         .message "t2" (.valid doneEvent)]).logs =
      [{ id := "t1", timestamp := "t1", message := "✅ fake",
         severity := .info }] := by
  decide

/-- One parsed event never reads the pause flag: processing it on a state
with the flag overwritten equals overwriting the flag afterwards. -/
theorem handleEventData_isPaused (now : String) (st : StreamState)
    (d : EventData) (b : Bool) :
    handleEventData now { st with isPaused := b } d =
      { handleEventData now st d with isPaused := b } := by
  simp only [handleEventData]
  split_ifs <;> rfl

/-- One raw message never reads the pause flag. -/
theorem handleMessage_isPaused (now : String) (st : StreamState)
    (m : MsgData) (b : Bool) :
    handleMessage now { st with isPaused := b } m =
      { handleMessage now st m with isPaused := b } := by
  cases m with
  | invalid => rfl
  | absent => exact handleEventData_isPaused now st {} b
  | valid d => exact handleEventData_isPaused now st d b

/-- A message-only interaction sequence carries an overwritten pause flag
through unchanged. -/
theorem runStream_messages_isPaused (as : List StreamAction)
    (hm : ∀ a ∈ as, isMessageAction a = true) (st : StreamState)
    (b : Bool) :
    runStream { st with isPaused := b } as =
      { runStream st as with isPaused := b } := by
  induction as generalizing st with
  | nil => rfl
  | cons a rest ih =>
    cases a with
    | setPaused c =>
      have := hm _ (List.mem_cons_self _ _)
      simp [isMessageAction] at this
    | message now m =>
      show runStream (handleMessage now { st with isPaused := b } m) rest = _
      rw [handleMessage_isPaused]
      exact ih (fun a ha => hm a (List.mem_cons_of_mem _ ha))
        (handleMessage now st m)

/-- Everything in the stream state except the pause flag. -/
def coreView (st : StreamState) :
    List LogEntry × ConnState × PipeStatus × List (String × String) ×
      Option String :=
  (st.logs, st.connectionState, st.pipelineStatus, st.storeUpdates,
   st.loadError)

/-- Claim C8, amended, for the SSE page: the pause flag only drives the
auto-scroll effect; the `onmessage` path never reads it.  Deleting every
pause toggle from an interaction sequence leaves the log list (entries
and order) and all other stream state — connection state, pipeline
status, store updates, load error — exactly the same. -/
theorem pause_never_affects_ingestion (st : StreamState)
    (as : List StreamAction) :
    coreView (runStream st as) =
      coreView (runStream st (as.filter isMessageAction)) := by
  induction as generalizing st with
  | nil => rfl
  | cons a rest ih =>
    cases a with
    | message now m =>
      rw [List.filter_cons, if_pos (by simp [isMessageAction])]
      show coreView (runStream (handleMessage now st m) rest) = _
      exact ih (handleMessage now st m)
    | setPaused b =>
      rw [List.filter_cons, if_neg (by simp [isMessageAction])]
      show coreView (runStream { st with isPaused := b } rest) = _
      rw [ih { st with isPaused := b },
        runStream_messages_isPaused _
          (fun a ha => List.of_mem_filter ha) st b]
      rfl

/-- Claim C8, counterexample, from the mock variant: the mock page's effect has
`isPaused` in its dependency array and its interval skips ticks while
paused, so pausing after three events and resuming restarts the mock
sequence from index 0: the first three messages are appended twice and
the final log has 19 entries, where the un-paused page ends with the 16
mock entries — the log list is not identical whether or not the consumer
was paused during delivery. -/
theorem mock_pause_replay_counterexample :
    (runMock initMock
        (List.replicate 3 MockAction.tick ++
          [MockAction.togglePause, MockAction.togglePause] ++
          List.replicate 21 MockAction.tick)).logs.length = 19 ∧
    (runMock initMock (List.replicate 26 MockAction.tick)).logs.length
      = 16 ∧
    (runMock initMock
        (List.replicate 3 MockAction.tick ++
          [MockAction.togglePause, MockAction.togglePause] ++
          List.replicate 21 MockAction.tick)).logs ≠
      (runMock initMock (List.replicate 26 MockAction.tick)).logs := by
  refine ⟨by decide, by decide, by decide⟩

end DocnineUI
